import Mathlib

/-!
Verification of the account-importer user-data dumper.

The development shallowly embeds the two Go variants found in the repository:
the flag-driven variant in src/main.go (identifier resolution, sorted table
iteration, per-table in-memory INSERT generation) and the streaming variant in
src/unnamed/part_000 (rows printed to the output sink one at a time).
Database access is modelled as an oracle supplying query outcomes; all string
formatting is embedded faithfully from the Go source.
-/

namespace AccountImporter

/-- Single-quote character (code point 39), the character escaped by the
value formatter. -/
def qc : Char := Char.ofNat 39

/-- Single-quote as a one-character string. -/
def sq : String := String.mk [qc]

/-- Character-level embedding of Go strings.ReplaceAll applied to the
one-character pattern used at src/main.go line 209: scan left to right and
replace each occurrence of a single quote by two single quotes.  For a
one-character pattern the non-overlapping scan of ReplaceAll is exactly this
recursion. -/
def escapeChars : List Char → List Char
  | [] => []
  | c :: cs => if c = qc then qc :: qc :: escapeChars cs else c :: escapeChars cs

/-- Embedding of escapeSingleQuotes (src/main.go lines 208-210): escapes
single quotes in string values for SQL safety. -/
def escapeSingleQuotes (s : String) : String := String.mk (escapeChars s.data)

/-- Embedding of a Go time.Time value as used by the dumper: the absolute
instant in Unix seconds, the sub-second nanoseconds, and the zone offset in
seconds of the location attached to the value (presentation only; the instant
is absolute). -/
structure GoTime where
  sec : Int
  nsec : Nat
  offset : Int
deriving DecidableEq, Repr

/-- Embedding of the Go method time.Time.UTC: same instant, presentation
zone replaced by UTC (offset 0). -/
def GoTime.utc (t : GoTime) : GoTime := ⟨t.sec, t.nsec, 0⟩

/-- Civil date (year, month, day) of a day count relative to 1970-01-01,
in the proleptic Gregorian calendar (the standard era-based conversion,
matching the date computation of the Go time package). -/
def civilDate (days : Int) : Int × Int × Int :=
  let z := days + 719468
  let era : Int := Int.fdiv z 146097
  let doe : Int := z - era * 146097
  let yoe : Int :=
    Int.fdiv (doe - Int.fdiv doe 1460 + Int.fdiv doe 36524 - Int.fdiv doe 146096) 365
  let doy : Int := doe - (365 * yoe + Int.fdiv yoe 4 - Int.fdiv yoe 100)
  let mp : Int := Int.fdiv (5 * doy + 2) 153
  let d : Int := doy - Int.fdiv (153 * mp + 2) 5 + 1
  let m : Int := mp + (if mp < 10 then 3 else -9)
  (yoe + era * 400 + (if m ≤ 2 then 1 else 0), m, d)

/-- Two-digit zero-padded decimal, as produced by the Go layout chunks 01,
02, 15, 04, 05. -/
def pad2 (n : Int) : String := if n < 10 then "0" ++ toString n else toString n

/-- Four-digit zero-padded decimal, as produced by the Go layout chunk 2006. -/
def pad4 (n : Int) : String :=
  if n < 10 then "000" ++ toString n
  else if n < 100 then "00" ++ toString n
  else if n < 1000 then "0" ++ toString n
  else toString n

/-- Text of an absolute Unix second under the Go layout 2006-01-02T15:04:05Z
when the displayed zone is UTC.  The trailing Z of that layout is a literal
character (it is not followed by a zone chunk), and the layout has no
fractional-second chunk, so nanoseconds do not appear: sub-second precision
is truncated. -/
def rfc3339secUTC (sec : Int) : String :=
  let days := Int.fdiv sec 86400
  let sod := sec - days * 86400
  let ymd := civilDate days
  pad4 ymd.1 ++ "-" ++ pad2 ymd.2.1 ++ "-" ++ pad2 ymd.2.2 ++ "T" ++
    pad2 (Int.fdiv sod 3600) ++ ":" ++ pad2 (Int.fdiv (sod % 3600) 60) ++ ":" ++
    pad2 (sod % 60) ++ "Z"

/-- Embedding of the Go call val.Format with layout 2006-01-02T15:04:05Z
(src/main.go line 195): the civil time shown is the absolute instant shifted
by the offset of the attached zone. -/
def GoTime.format3339 (t : GoTime) : String := rfc3339secUTC (t.sec + t.offset)

/-- Modelled from the Go standard library: the text the %v verb prints for a
time.Time value (its String method, layout 2006-01-02 15:04:05.999999999
-0700 MST) when the value is located in UTC and has whole-second precision:
the civil fields with a space separator, no fractional digits (the
fraction chunk drops trailing zeros, so at zero nanoseconds it vanishes),
the numeric offset +0000 and the zone name UTC.  This is the text a
timestamp cell receives in the streaming variant, whose formatting switch
(src/unnamed/part_000 lines 121-132) has no time.Time arm and sends such
values through its default %v arm. -/
def goTimeTextUTC (sec : Int) : String :=
  let days := Int.fdiv sec 86400
  let sod := sec - days * 86400
  let ymd := civilDate days
  pad4 ymd.1 ++ "-" ++ pad2 ymd.2.1 ++ "-" ++ pad2 ymd.2.2 ++ " " ++
    pad2 (Int.fdiv sod 3600) ++ ":" ++ pad2 (Int.fdiv (sod % 3600) 60) ++ ":" ++
    pad2 (sod % 60) ++ " +0000 UTC"

/-- Closed variant type of a scanned database cell, following the runtime
type switch of src/main.go lines 187-198: nil, bool, byte slice (text),
time.Time, or any other driver value carried by its default textual
representation (the text fmt prints for the %v verb). -/
inductive CellValue where
  | null
  | bool (b : Bool)
  | bytes (s : String)
  | time (t : GoTime)
  | other (repr : String)
deriving DecidableEq, Repr

/-- Embedding of the per-cell formatting switch of generateInsertStatements
(src/main.go lines 186-199): NULL unquoted, booleans as the %t text, byte
slices single-quoted with single quotes doubled, times single-quoted after
normalizing to UTC and formatting at second precision, anything else
single-quoted around its default textual representation. -/
def formatValue : CellValue → String
  | .null => "NULL"
  | .bool b => if b then "true" else "false"
  | .bytes s => sq ++ escapeSingleQuotes s ++ sq
  | .time t => sq ++ (t.utc).format3339 ++ sq
  | .other r => sq ++ r ++ sq

/-- Outcome of a single database operation that can fail.  noRows models
sql.ErrNoRows (a single-row query matched nothing); failure models every
other database error (connectivity loss, bad query, scan failure), carrying
its message. -/
inductive QueryError where
  | noRows
  | failure (msg : String)
deriving DecidableEq, Repr

/-- Go text of each modelled database error, as printed by the %v verb: the
sentinel sql.ErrNoRows prints sql: no rows in result set, and every other
failure carries its own message. -/
def QueryError.goText : QueryError → String
  | .noRows => "sql: no rows in result set"
  | .failure msg => msg

/-- Scanned row: the dynamically typed cells in column order. -/
abbrev Row := List CellValue

/-- Text of the INSERT statement built for one row by the loop body of
generateInsertStatements (src/main.go line 201): the table name quoted, the
column names joined by comma-space, the formatted values joined by
comma-space in the same order as the columns, a trailing semicolon and
newline. -/
def insertLine (table : String) (cols : List String) (r : Row) : String :=
  "INSERT INTO \"" ++ table ++ "\" (" ++ String.intercalate ", " cols ++
    ") VALUES (" ++ String.intercalate ", " (r.map formatValue) ++ ");\n"

/-- Embedding of the row loop of generateInsertStatements (src/main.go lines
174-204): each scan outcome is consumed in order; a successful scan appends
the INSERT statement of the row to the accumulated output, and a scan error
aborts the whole call with that error, discarding the accumulated text. -/
def genRowsLoop (table : String) (cols : List String) (out : String) :
    List (Except QueryError Row) → Except QueryError String
  | [] => .ok out
  | .error e :: _ => .error e
  | .ok r :: rest => genRowsLoop table cols (out ++ insertLine table cols r) rest

/-- Database oracle for the dump phase: running a query text with its single
bound parameter either fails, or yields the column list together with the
scan outcome of each result row in cursor order. -/
structure DumpDB where
  run : String → String → Except QueryError (List String × List (Except QueryError Row))

/-- Embedding of generateInsertStatements (src/main.go lines 161-205): run
the query, fetch the column list once, then serialize every row; any error
(query execution, column fetch folded into the oracle, or row scan) is
returned to the caller and no text is produced. -/
def generateInsertStatements (db : DumpDB) (query table param : String) :
    Except QueryError String :=
  match db.run query param with
  | .error e => .error e
  | .ok (cols, scans) => genRowsLoop table cols "" scans

/-- The fixed table-to-query map of src/main.go lines 57-63, as the
association list underlying the Go map literal. -/
def tableQueries : List (String × String) :=
  [("accounts", "SELECT * FROM accounts WHERE user_id = $1"),
   ("users", "SELECT * FROM users WHERE id = $1"),
   ("app_auth_tokens", "SELECT * FROM app_auth_tokens WHERE user_id = $1"),
   ("user_identities", "SELECT * FROM user_identities WHERE user_id = $1"),
   ("user_preferences", "SELECT * FROM user_preferences WHERE user_id = $1")]

/-- Query text bound to a table name in the fixed map. -/
def queryFor (table : String) : String :=
  ((tableQueries.find? (fun kv => kv.1 == table)).map Prod.snd).getD ""

/-- Contribution of one table to the final output, following the loop body
of main (src/main.go lines 72-81): on error the table is skipped with a
logged warning and contributes nothing; on success the block is the comment
header, the dump text, and a blank-line separator. -/
def tableBlock (db : DumpDB) (userID table : String) : String :=
  match generateInsertStatements db (queryFor table) table userID with
  | .error _ => ""
  | .ok dump => "-- Insert for " ++ table ++ "\n" ++ dump ++ "\n"

/-- Embedding of the output assembly of main (src/main.go lines 65-83):
the map keys are collected in whatever order the Go map iterates (the
keysEnum parameter), sorted ascending by sort.Strings, and each table is
dumped in that sorted order into one concatenated output string. -/
def mainOutput (db : DumpDB) (keysEnum : List String) (userID : String) : String :=
  let sortedKeys := keysEnum.mergeSort (fun a b => decide (a ≤ b))
  String.join (sortedKeys.map (tableBlock db userID))

/-- Terminal failures of the resolution phase (log.Fatal calls of main,
src/main.go lines 27-52). -/
inductive Fatal where
  | usage (msg : String)
  | userNotFound (userID : String)
  | accountNotFound (accountID : String) (errText : String)
deriving DecidableEq, Repr

/-- Message printed for each terminal resolution failure, following the
log.Fatalf format strings of src/main.go lines 28, 38, 43, 48, 51; the
account failure interpolates both the account identifier and the text of
the underlying error (the %v argument at line 43). -/
def fatalMessage : Fatal → String
  | .usage msg => msg
  | .userNotFound userID => "Could not find user_id " ++ userID ++ " in the database."
  | .accountNotFound accountID errText =>
      "Could not find user_id associated with account_id " ++ accountID
      ++ ": " ++ errText

/-- A database query issued during identifier resolution, recorded so that
theorems can state which queries a code path performs. -/
inductive Query where
  | selectUserById (userID : String)
  | selectAccountById (accountID : String)
deriving DecidableEq, Repr

/-- Database oracle for the resolution phase: the single-row lookups
SELECT id FROM users WHERE id equals the parameter, and SELECT user_id FROM
accounts WHERE id equals the parameter, each returning the scanned value or
a query error. -/
structure ResolveDB where
  usersById : String → Except QueryError String
  accountsById : String → Except QueryError String

/-- Embedding of userExists (src/main.go lines 109-119): run the single-row
lookup in the users table and report true exactly when the scan returned no
error (err == nil); every error, whatever its kind, yields false. -/
def userExists (db : ResolveDB) (userID : String) : Bool :=
  match db.usersById userID with
  | .ok _ => true
  | .error _ => false

/-- Embedding of getUserIDFromAccountID (src/main.go lines 96-106): the
single-row lookup of user_id in the accounts table keyed by the account id,
propagating any error. -/
def getUserIDFromAccountID (db : ResolveDB) (accountID : String) :
    Except QueryError String :=
  db.accountsById accountID

/-- Usage message of the conflicting-flags check (src/main.go line 28). -/
def usageBothMsg : String :=
  "Provide either --user_id or --account_id, not both. Or pass a positional argument (assumed to be user_id by default)."

/-- Usage message of the missing-identifier default case (src/main.go line 51). -/
def usageMissingMsg : String :=
  "Usage: go run main.go [--output=true] [--user_id=<id> | --account_id=<id>] <user_id>"

/-- Embedding of the argument handling and identifier resolution of main
(src/main.go lines 27-52).  The first component is the resolved canonical
user id or the terminal failure; the second component is the list of
database queries the path issued, in order (the conflicting-flags check at
line 27 runs before any database access, so its path issues none). -/
def resolveUserID (db : ResolveDB) (userIDFlag accountIDFlag : String)
    (args : List String) : Except Fatal String × List Query :=
  if (userIDFlag ≠ "" ∧ accountIDFlag ≠ "") ∨
      (args.length > 0 ∧ (userIDFlag ≠ "" ∨ accountIDFlag ≠ "")) then
    (.error (.usage usageBothMsg), [])
  else if userIDFlag ≠ "" then
    (if userExists db userIDFlag then .ok userIDFlag
     else .error (.userNotFound userIDFlag),
     [.selectUserById userIDFlag])
  else if accountIDFlag ≠ "" then
    (match getUserIDFromAccountID db accountIDFlag with
     | .ok uid => .ok uid
     | .error e => .error (.accountNotFound accountIDFlag e.goText),
     [.selectAccountById accountIDFlag])
  else if args.length = 1 then
    (if userExists db (args.headD "") then .ok (args.headD "")
     else .error (.userNotFound (args.headD "")),
     [.selectUserById (args.headD "")])
  else (.error (.usage usageMissingMsg), [])

/-- Whole-run embedding of main (src/main.go lines 24-93): resolution first;
a terminal resolution failure stops the process before any table dump, and a
successful resolution drives the sorted table dump with the resolved user
id. -/
def mainRun (rdb : ResolveDB) (ddb : DumpDB) (userIDFlag accountIDFlag : String)
    (args keysEnum : List String) : Except Fatal String :=
  match (resolveUserID rdb userIDFlag accountIDFlag args).1 with
  | .error f => .error f
  | .ok uid => .ok (mainOutput ddb keysEnum uid)

/-- Closed variant type of a scanned cell in the streaming variant
(src/unnamed/part_000 lines 121-132), whose type switch has exactly the arms
nil, bool, byte slice, and default; the default arm carries the default
textual representation of the value (this variant has no time.Time arm, so
time values also arrive through the default arm). -/
inductive CellValueV0 where
  | null
  | bool (b : Bool)
  | bytes (s : String)
  | other (repr : String)
deriving DecidableEq, Repr

/-- Per-cell formatting switch of runDump (src/unnamed/part_000 lines
121-132). -/
def formatValueV0 : CellValueV0 → String
  | .null => "NULL"
  | .bool b => if b then "true" else "false"
  | .bytes s => sq ++ escapeSingleQuotes s ++ sq
  | .other r => sq ++ r ++ sq

/-- Scanned row of the streaming variant. -/
abbrev RowV0 := List CellValueV0

/-- Text printed for one row by runDump (src/unnamed/part_000 line 134): a
per-row comment header, the INSERT statement, and a blank line. -/
def rowStmtV0 (table : String) (cols : List String) (r : RowV0) : String :=
  "-- Insert for " ++ table ++ "\nINSERT INTO \"" ++ table ++ "\" (" ++
    String.intercalate ", " cols ++ ") VALUES (" ++
    String.intercalate ", " (r.map formatValueV0) ++ ");\n\n"

/-- Embedding of the row loop of runDump (src/unnamed/part_000 lines
109-139): each statement is printed to the output sink as soon as its row is
scanned; a scan failure calls log.Fatalf, which kills the process after the
earlier statements were already emitted.  The first component is the text
emitted to the sink, the second the fatal scan error if one occurred. -/
def runDumpStream (table : String) (cols : List String) :
    List (Except QueryError RowV0) → String × Option QueryError
  | [] => ("", none)
  | .error e :: _ => ("", some e)
  | .ok r :: rest =>
      let res := runDumpStream table cols rest
      (rowStmtV0 table cols r ++ res.1, res.2)

/-- Embedding of lookupUserID (src/unnamed/part_000 lines 86-93): the
single-row lookup of user_id in the accounts table keyed by the account id;
on any error the process dies via log.Fatalf with the message Failed to
look up user_id: followed by the text of the error.  The message does not
interpolate the account identifier. -/
def lookupUserIDV0 (db : ResolveDB) (accountID : String) : Except String String :=
  match db.accountsById accountID with
  | .ok uid => .ok uid
  | .error e => .error ("Failed to look up user_id: " ++ e.goText)

/-- The fixed table-to-query map of the streaming variant
(src/unnamed/part_000 lines 15-21), as the association list underlying the
Go map literal.  Every query is keyed by the account id bound to the single
parameter. -/
def tableQueriesV0 : List (String × String) :=
  [("accounts", "SELECT * FROM accounts WHERE id = $1"),
   ("users", "SELECT * FROM users WHERE id = (SELECT user_id FROM accounts WHERE id = $1)"),
   ("app_auth_tokens", "SELECT * FROM app_auth_tokens WHERE user_id = (SELECT user_id FROM accounts WHERE id = $1)"),
   ("user_identities", "SELECT * FROM user_identities WHERE user_id = (SELECT user_id FROM accounts WHERE id = $1)"),
   ("user_preferences", "SELECT * FROM user_preferences WHERE user_id = (SELECT user_id FROM accounts WHERE id = $1)")]

/-- Query text bound to a table name in the fixed map of the streaming
variant. -/
def queryForV0 (table : String) : String :=
  ((tableQueriesV0.find? (fun kv => kv.1 == table)).map Prod.snd).getD ""

/-- Database oracle for the dump phase of the streaming variant: as DumpDB,
but rows scan into the variant cell type. -/
structure DumpDBV0 where
  run : String → String →
    Except QueryError (List String × List (Except QueryError RowV0))

/-- Embedding of runDump (src/unnamed/part_000 lines 96-140): a query or
column-fetch failure is fatal before anything of the table is printed;
otherwise the rows stream to the sink via the row loop. -/
def runDumpV0 (db : DumpDBV0) (query table param : String) :
    String × Option QueryError :=
  match db.run query param with
  | .error e => ("", some e)
  | .ok (cols, scans) => runDumpStream table cols scans

/-- Embedding of the table loop of the streaming variant main
(src/unnamed/part_000 lines 49-51): tables are visited in whatever order
the Go map iterates (the argument list), with no sorting anywhere, each
dumped by runDump with the account id as the bound parameter; a fatal error
inside a dump kills the process, keeping the text emitted so far.  The
first component is the emitted text, the second the fatal error if one
occurred. -/
def mainLoopV0 (db : DumpDBV0) (param : String) :
    List String → String × Option QueryError
  | [] => ("", none)
  | table :: rest =>
      let r := runDumpV0 db (queryForV0 table) table param
      match r.2 with
      | some e => (r.1, some e)
      | none =>
          let res := mainLoopV0 db param rest
          (r.1 ++ res.1, res.2)

/-- Concrete streaming dump oracle in which every query succeeds with one
column and a single row, used by counterexamples and witnesses. -/
def vdbAll : DumpDBV0 :=
  ⟨fun _ _ => .ok (["id"], [.ok [.bytes "x"]])⟩

/-- Rows of a scan-outcome list that the streaming loop reaches before its
first scan failure (specification-side helper for the amended claim C4). -/
def rowsBeforeFailure : List (Except QueryError RowV0) → List RowV0
  | [] => []
  | .error _ :: _ => []
  | .ok r :: rest => r :: rowsBeforeFailure rest

/-- Concatenation of a list of statement strings in order
(specification-side helper). -/
def linesConcat : List String → String
  | [] => ""
  | s :: rest => s ++ linesConcat rest

/-- Concrete resolution oracle in which user U1 exists and account A1 maps
to user U1, used by witnesses. -/
def dbU1 : ResolveDB :=
  ⟨fun uid => if uid == "U1" then .ok "U1" else .error .noRows,
   fun aid => if aid == "A1" then .ok "U1" else .error .noRows⟩

/-- Concrete resolution oracle with no users and no accounts. -/
def emptyResolveDB : ResolveDB :=
  ⟨fun _ => .error .noRows, fun _ => .error .noRows⟩

/-- Concrete resolution oracle in which every lookup fails with a
connectivity error. -/
def connFailDB : ResolveDB :=
  ⟨fun _ => .error (.failure "connection refused"),
   fun _ => .error (.failure "connection refused")⟩

/-- Concrete dump oracle in which every query succeeds with one column and
zero rows. -/
def emptyDumpDB : DumpDB := ⟨fun _ _ => .ok (["id"], [])⟩

/-! Helper lemmas shared by several claim theorems. -/

/-- The row loop over scans that all succeed produces the accumulator
followed by the concatenated statement lines, in row order. -/
theorem genRowsLoop_all_ok (table : String) (cols : List String) :
    ∀ (rows : List Row) (out : String),
      genRowsLoop table cols out (rows.map .ok) =
        .ok (out ++ linesConcat (rows.map (insertLine table cols)))
  | [], out => by simp [genRowsLoop, linesConcat]
  | r :: rows, out => by
      rw [List.map_cons, List.map_cons]
      show genRowsLoop table cols (out ++ insertLine table cols r) (rows.map .ok) = _
      rw [genRowsLoop_all_ok table cols rows (out ++ insertLine table cols r)]
      rw [linesConcat, String.append_assoc]

/-- Character-level behaviour of the escape scan: every single quote is
doubled and every other character is kept unchanged. -/
theorem escapeChars_flatMap (cs : List Char) :
    escapeChars cs = cs.flatMap (fun c => if c = qc then [qc, qc] else [c]) := by
  induction cs with
  | nil => rfl
  | cons c cs ih =>
      rw [escapeChars, List.flatMap_cons, ih]
      split <;> simp

end AccountImporter

namespace AccountImporter

/-- C1: For every query result of N rows, each with M columns and M cell
values, the row serialization inside the table dump produces exactly N
statements, each of the single-line form INSERT INTO "table" (columns)
VALUES (literals); followed by a newline, with the M formatted values in the
same order as the column list. -/
theorem c1_row_serialization (table : String) (cols : List String)
    (rows : List Row) (h : ∀ r ∈ rows, r.length = cols.length) :
    genRowsLoop table cols "" (rows.map .ok) =
      .ok (linesConcat (rows.map (insertLine table cols))) ∧
    (rows.map (insertLine table cols)).length = rows.length ∧
    ∀ r ∈ rows,
      insertLine table cols r =
        "INSERT INTO \"" ++ table ++ "\" (" ++ String.intercalate ", " cols ++
          ") VALUES (" ++ String.intercalate ", " (r.map formatValue) ++ ");\n" ∧
      (r.map formatValue).length = cols.length := by
  refine ⟨?_, List.length_map _ _, fun r hr => ⟨rfl, ?_⟩⟩
  · rw [genRowsLoop_all_ok, String.empty_append]
  · rw [List.length_map, h r hr]

/-- C1 witness: two rows of two columns. -/
theorem c1_row_serialization_witness :
    (∀ r ∈ ([[CellValue.null, CellValue.bool true],
             [CellValue.bytes "x", CellValue.other "7"]] : List Row),
        r.length = (["id", "name"] : List String).length) ∧
    (genRowsLoop "users" ["id", "name"] ""
        (([[CellValue.null, CellValue.bool true],
           [CellValue.bytes "x", CellValue.other "7"]] : List Row).map .ok) =
      .ok (linesConcat
        (([[CellValue.null, CellValue.bool true],
           [CellValue.bytes "x", CellValue.other "7"]] : List Row).map
          (insertLine "users" ["id", "name"]))) ∧
     (([[CellValue.null, CellValue.bool true],
        [CellValue.bytes "x", CellValue.other "7"]] : List Row).map
        (insertLine "users" ["id", "name"])).length =
      ([[CellValue.null, CellValue.bool true],
        [CellValue.bytes "x", CellValue.other "7"]] : List Row).length ∧
     ∀ r ∈ ([[CellValue.null, CellValue.bool true],
             [CellValue.bytes "x", CellValue.other "7"]] : List Row),
       insertLine "users" ["id", "name"] r =
         "INSERT INTO \"" ++ "users" ++ "\" (" ++
           String.intercalate ", " ["id", "name"] ++ ") VALUES (" ++
           String.intercalate ", " (r.map formatValue) ++ ");\n" ∧
       (r.map formatValue).length = (["id", "name"] : List String).length) :=
  ⟨by decide, c1_row_serialization "users" ["id", "name"] _ (by decide)⟩

/-- C2: For every binary or text cell value, the value formatter returns the
value surrounded by single quotes with every single-quote character doubled,
and performs no other modification: every character other than a single
quote appears unchanged, in place. -/
theorem c2_text_escaping (s : String) :
    formatValue (.bytes s) = sq ++ escapeSingleQuotes s ++ sq ∧
    (escapeSingleQuotes s).data =
      s.data.flatMap (fun c => if c = qc then [qc, qc] else [c]) :=
  ⟨rfl, escapeChars_flatMap s.data⟩

/-- C3 counterexample: in the streaming variant (src/unnamed/part_000 lines
121-132), whose formatting switch has no time.Time arm, the timestamp
2024-01-02 03:04:05+00 reaches the default %v arm as its Go default text
and is serialized as the single-quoted literal 2024-01-02 03:04:05 +0000
UTC, not the claimed single-quoted 2024-01-02T03:04:05Z, refuting the claim
for that cited variant. -/
theorem c3_v0_default_text_counterexample :
    goTimeTextUTC 1704164645 = "2024-01-02 03:04:05 +0000 UTC" ∧
    formatValueV0 (.other (goTimeTextUTC 1704164645)) =
      sq ++ "2024-01-02 03:04:05 +0000 UTC" ++ sq ∧
    formatValueV0 (.other (goTimeTextUTC 1704164645)) ≠
      sq ++ "2024-01-02T03:04:05Z" ++ sq :=
  ⟨by decide, by decide, by decide⟩

/-- C3 amended: in the main.go variant, the value formatter returns for
every timestamp cell a single-quoted literal of the instant normalized to
UTC in the form YYYY-MM-DDTHH:MM:SSZ with sub-second precision truncated
(the result depends only on the absolute Unix second, not on the attached
zone offset or the nanoseconds), and 2024-01-02 03:04:05+00 formats exactly
as 2024-01-02T03:04:05Z inside single quotes (shown both at nanosecond zero
and at a nonzero nanosecond presented in a non-UTC zone).  In the streaming
variant, whose formatting switch has no timestamp arm, a timestamp cell is
single-quoted around its unmodified Go default text, which for that instant
is 2024-01-02 03:04:05 +0000 UTC rather than the YYYY-MM-DDTHH:MM:SSZ
form. -/
theorem c3_timestamp_format :
    (∀ t : GoTime, formatValue (.time t) = sq ++ rfc3339secUTC t.sec ++ sq) ∧
    formatValue (.time ⟨1704164645, 0, 0⟩) =
      sq ++ "2024-01-02T03:04:05Z" ++ sq ∧
    formatValue (.time ⟨1704164645, 999999999, 18000⟩) =
      sq ++ "2024-01-02T03:04:05Z" ++ sq ∧
    (∀ r : String, formatValueV0 (.other r) = sq ++ r ++ sq) ∧
    formatValueV0 (.other (goTimeTextUTC 1704164645)) =
      sq ++ "2024-01-02 03:04:05 +0000 UTC" ++ sq := by
  refine ⟨fun t => ?_, by decide, by decide, fun r => rfl, by decide⟩
  show sq ++ (GoTime.utc t).format3339 ++ sq = _
  rw [GoTime.utc, GoTime.format3339]
  norm_num

/-- C9: For every table query that executes successfully but matches zero
rows, the table dump returns an empty text block and no error. -/
theorem c9_zero_rows_empty_block (db : DumpDB) (query table param : String)
    (cols : List String) (h : db.run query param = .ok (cols, [])) :
    generateInsertStatements db query table param = .ok "" := by
  rw [generateInsertStatements, h]
  rfl

/-- C9 witness: oracle returning zero rows. -/
theorem c9_zero_rows_empty_block_witness :
    emptyDumpDB.run "SELECT * FROM users WHERE id = $1" "42" = .ok (["id"], []) ∧
    generateInsertStatements emptyDumpDB "SELECT * FROM users WHERE id = $1"
      "users" "42" = .ok "" :=
  ⟨rfl, c9_zero_rows_empty_block emptyDumpDB _ "users" "42" ["id"] rfl⟩

/-- The five table names of the fixed map in ascending order. -/
def sortedTables : List String :=
  ["accounts", "app_auth_tokens", "user_identities", "user_preferences", "users"]

/-- The ascending table-name list is sorted lexicographically. -/
theorem sortedTables_sorted : sortedTables.Sorted (· ≤ ·) := by
  simp only [sortedTables, List.sorted_cons, List.forall_mem_cons, List.forall_mem_nil,
    List.sorted_nil, and_true, String.le_iff_toList_le]
  decide

/-- Sorting any enumeration order of the table-map keys yields the one
ascending list. -/
theorem mergeSort_tableKeys (p : List String)
    (hp : List.Perm p (tableQueries.map Prod.fst)) :
    p.mergeSort (fun a b => decide (a ≤ b)) = sortedTables := by
  apply List.eq_of_perm_of_sorted (r := fun a b : String => a ≤ b)
  · exact (List.mergeSort_perm _ _).trans (hp.trans (by decide))
  · exact List.sorted_mergeSort' _
  · exact sortedTables_sorted

set_option maxRecDepth 8192 in
/-- C5 counterexample: in the streaming variant (src/unnamed/part_000 lines
49-51), the table loop visits the query map in its enumeration order with
no sorting, so two enumeration orders of the same key set emit the blocks
in different orders; in particular the reversed enumeration emits the users
block first, which is not lexicographic order, refuting the claim for that
cited variant. -/
theorem c5_v0_enumeration_counterexample :
    List.Perm ["users", "user_preferences", "user_identities",
        "app_auth_tokens", "accounts"] (tableQueriesV0.map Prod.fst) ∧
    (mainLoopV0 vdbAll "A1" ["users", "user_preferences", "user_identities",
        "app_auth_tokens", "accounts"]).1 =
      linesConcat (["users", "user_preferences", "user_identities",
        "app_auth_tokens", "accounts"].map
          (fun t => rowStmtV0 t ["id"] [.bytes "x"])) ∧
    (mainLoopV0 vdbAll "A1" ["users", "user_preferences", "user_identities",
        "app_auth_tokens", "accounts"]).1 ≠
      (mainLoopV0 vdbAll "A1" sortedTables).1 :=
  ⟨by decide, by decide, by decide⟩

/-- C5 amended: in the main.go variant, the per-table dump blocks appear in
lexicographic order of the table names regardless of the order in which the
table-to-query map enumerates its keys (any enumeration order that is a
permutation of the key set produces the one output obtained from the
ascending key list).  In the streaming variant, the tables are dumped in
the enumeration order of its map itself, with no sorting, so the block
order follows the randomized map iteration instead of a fixed lexicographic
order. -/
theorem c5_table_order (db : DumpDB) (userID : String) (p : List String)
    (hp : List.Perm p (tableQueries.map Prod.fst)) :
    (mainOutput db p userID =
      String.join (sortedTables.map (tableBlock db userID)) ∧
     sortedTables.Sorted (· ≤ ·)) ∧
    (∀ (vdb : DumpDBV0) (param : String) (ks : List String),
      (mainLoopV0 vdb param ks).2 = none →
      (mainLoopV0 vdb param ks).1 =
        linesConcat (ks.map (fun t => (runDumpV0 vdb (queryForV0 t) t param).1))) := by
  constructor
  · refine ⟨?_, sortedTables_sorted⟩
    show String.join ((p.mergeSort (fun a b => decide (a ≤ b))).map
      (tableBlock db userID)) = _
    rw [mergeSort_tableKeys p hp]
  · intro vdb param ks
    induction ks with
    | nil => intro _; rfl
    | cons t rest ih =>
        intro h
        rw [mainLoopV0] at h ⊢
        cases hr : (runDumpV0 vdb (queryForV0 t) t param).2 with
        | some e => simp [hr] at h
        | none =>
            simp only [hr] at h ⊢
            rw [List.map_cons, linesConcat, ih h]

/-- C5 witness: a reversed enumeration order of the five keys in the
main.go variant, and a concrete error-free streaming run. -/
theorem c5_table_order_witness :
    List.Perm ["user_preferences", "user_identities", "users",
        "app_auth_tokens", "accounts"] (tableQueries.map Prod.fst) ∧
    (mainLoopV0 vdbAll "A1" sortedTables).2 = none ∧
    (mainOutput emptyDumpDB ["user_preferences", "user_identities", "users",
        "app_auth_tokens", "accounts"] "42" =
      String.join (sortedTables.map (tableBlock emptyDumpDB "42")) ∧
     sortedTables.Sorted (· ≤ ·)) ∧
    (mainLoopV0 vdbAll "A1" sortedTables).1 =
      linesConcat (sortedTables.map
        (fun t => (runDumpV0 vdbAll (queryForV0 t) t "A1").1)) :=
  ⟨by decide, rfl,
   (c5_table_order emptyDumpDB "42" _ (by decide)).1,
   (c5_table_order emptyDumpDB "42"
      ["user_preferences", "user_identities", "users", "app_auth_tokens",
       "accounts"] (by decide)).2 vdbAll "A1" sortedTables rfl⟩

/-- C6: For every invocation that supplies both an explicit user identifier
and an explicit account identifier simultaneously, the program fails with a
usage error before any database access occurs: the resolution result is the
usage failure, the list of issued queries is empty, and the whole run stops
with that failure before any table dump. -/
theorem c6_conflicting_flags (rdb : ResolveDB) (ddb : DumpDB)
    (u a : String) (args keysEnum : List String) (hu : u ≠ "") (ha : a ≠ "") :
    resolveUserID rdb u a args = (.error (.usage usageBothMsg), []) ∧
    mainRun rdb ddb u a args keysEnum = .error (.usage usageBothMsg) := by
  have h : resolveUserID rdb u a args = (.error (.usage usageBothMsg), []) := by
    rw [resolveUserID, if_pos (Or.inl ⟨hu, ha⟩)]
  exact ⟨h, by rw [mainRun, h]⟩

/-- C6 witness: both flags set. -/
theorem c6_conflicting_flags_witness :
    ("U1" : String) ≠ "" ∧ ("A1" : String) ≠ "" ∧
    (resolveUserID dbU1 "U1" "A1" [] = (.error (.usage usageBothMsg), []) ∧
     mainRun dbU1 emptyDumpDB "U1" "A1" [] [] = .error (.usage usageBothMsg)) :=
  ⟨by decide, by decide,
   c6_conflicting_flags dbU1 emptyDumpDB "U1" "A1" [] [] (by decide) (by decide)⟩

/-- C7: For every explicit or positional user identifier input, resolution
verifies existence in the canonical users table (the check succeeds exactly
when the single-row lookup returns a value); an existing identifier is
returned unchanged as the canonical user identifier, and a missing one
fails terminally with a not-found condition naming that identifier, before
any table dump begins. -/
theorem c7_user_resolution (rdb : ResolveDB) (ddb : DumpDB) (u : String)
    (keysEnum : List String) (hu : u ≠ "") :
    (userExists rdb u = true ↔ ∃ v, rdb.usersById u = .ok v) ∧
    (userExists rdb u = true →
      resolveUserID rdb u "" [] = (.ok u, [.selectUserById u]) ∧
      resolveUserID rdb "" "" [u] = (.ok u, [.selectUserById u])) ∧
    (userExists rdb u = false →
      resolveUserID rdb u "" [] = (.error (.userNotFound u), [.selectUserById u]) ∧
      resolveUserID rdb "" "" [u] = (.error (.userNotFound u), [.selectUserById u]) ∧
      mainRun rdb ddb u "" [] keysEnum = .error (.userNotFound u) ∧
      mainRun rdb ddb "" "" [u] keysEnum = .error (.userNotFound u)) ∧
    fatalMessage (.userNotFound u) =
      "Could not find user_id " ++ u ++ " in the database." := by
  refine ⟨?_, fun hex => ⟨?_, ?_⟩, fun hex => ⟨?_, ?_, ?_, ?_⟩, rfl⟩
  · rw [userExists]
    cases h : rdb.usersById u <;> simp [h]
  · simp [resolveUserID, hu, hex]
  · simp [resolveUserID, hex]
  · simp [resolveUserID, hu, hex]
  · simp [resolveUserID, hex]
  · simp [mainRun, resolveUserID, hu, hex]
  · simp [mainRun, resolveUserID, hex]

/-- C7 witness: user U1 exists in one oracle and is missing in another. -/
theorem c7_user_resolution_witness :
    ("U1" : String) ≠ "" ∧
    resolveUserID dbU1 "U1" "" [] = (.ok "U1", [.selectUserById "U1"]) ∧
    resolveUserID emptyResolveDB "U1" "" [] =
      (.error (.userNotFound "U1"), [.selectUserById "U1"]) :=
  ⟨by decide,
   ((c7_user_resolution dbU1 emptyDumpDB "U1" [] (by decide)).2.1 (by decide)).1,
   ((c7_user_resolution emptyResolveDB emptyDumpDB "U1" [] (by decide)).2.2.1
     (by decide)).1⟩

/-- C8 counterexample: in the streaming variant (src/unnamed/part_000 lines
86-93), an unmapped account identifier A1 dies with the message Failed to
look up user_id: sql: no rows in result set, which does not name the
account identifier A1 anywhere, refuting the claim that the not-found
condition names the account identifier. -/
theorem c8_v0_message_counterexample :
    lookupUserIDV0 emptyResolveDB "A1" =
      .error "Failed to look up user_id: sql: no rows in result set" ∧
    ¬ List.IsInfix ("A1".data)
        ("Failed to look up user_id: sql: no rows in result set".data) :=
  ⟨rfl, by decide⟩

/-- C8 amended: in the main.go variant, an explicit account identifier is
resolved via the single-row accounts query keyed by that identifier, the
returned user identifier is the canonical identifier driving the dump, and
a missing account fails terminally with a not-found condition whose message
names the account identifier.  In the streaming variant
(src/unnamed/part_000), the lookup is the same single-row query and an
existing account yields the associated user identifier, but a missing
account fails with the message Failed to look up user_id: followed by the
error text, which does not name the account identifier (and that variant
keys every per-table dump query by the account identifier, not by the
looked-up user identifier). -/
theorem c8_account_resolution (rdb : ResolveDB) (ddb : DumpDB) (a : String)
    (keysEnum : List String) (ha : a ≠ "") :
    getUserIDFromAccountID rdb a = rdb.accountsById a ∧
    (∀ uid, rdb.accountsById a = .ok uid →
      resolveUserID rdb "" a [] = (.ok uid, [.selectAccountById a]) ∧
      mainRun rdb ddb "" a [] keysEnum = .ok (mainOutput ddb keysEnum uid)) ∧
    (rdb.accountsById a = .error .noRows →
      resolveUserID rdb "" a [] =
        (.error (.accountNotFound a "sql: no rows in result set"),
         [.selectAccountById a]) ∧
      mainRun rdb ddb "" a [] keysEnum =
        .error (.accountNotFound a "sql: no rows in result set") ∧
      fatalMessage (.accountNotFound a "sql: no rows in result set") =
        "Could not find user_id associated with account_id " ++ a ++ ": " ++
          "sql: no rows in result set") ∧
    (∀ uid, rdb.accountsById a = .ok uid → lookupUserIDV0 rdb a = .ok uid) ∧
    (rdb.accountsById a = .error .noRows →
      lookupUserIDV0 rdb a =
        .error "Failed to look up user_id: sql: no rows in result set") := by
  refine ⟨rfl, fun uid hok => ⟨?_, ?_⟩, fun hnone => ⟨?_, ?_, rfl⟩,
    fun uid hok => ?_, fun hnone => ?_⟩
  · simp [resolveUserID, ha, getUserIDFromAccountID, hok]
  · simp [mainRun, resolveUserID, ha, getUserIDFromAccountID, hok]
  · simp [resolveUserID, ha, getUserIDFromAccountID, hnone, QueryError.goText]
  · simp [mainRun, resolveUserID, ha, getUserIDFromAccountID, hnone,
      QueryError.goText]
  · simp [lookupUserIDV0, hok]
  · simp [lookupUserIDV0, hnone, QueryError.goText]

/-- C8 witness: account A1 maps to user U1 in one oracle and is unmapped in
another, in both variants. -/
theorem c8_account_resolution_witness :
    ("A1" : String) ≠ "" ∧
    resolveUserID dbU1 "" "A1" [] = (.ok "U1", [.selectAccountById "A1"]) ∧
    resolveUserID emptyResolveDB "" "A1" [] =
      (.error (.accountNotFound "A1" "sql: no rows in result set"),
       [.selectAccountById "A1"]) ∧
    lookupUserIDV0 dbU1 "A1" = .ok "U1" :=
  ⟨by decide,
   ((c8_account_resolution dbU1 emptyDumpDB "A1" [] (by decide)).2.1 "U1" rfl).1,
   ((c8_account_resolution emptyResolveDB emptyDumpDB "A1" [] (by decide)).2.2.1
     rfl).1,
   (c8_account_resolution dbU1 emptyDumpDB "A1" [] (by decide)).2.2.2.1 "U1" rfl⟩

/-- C10: For every user identifier, the existence check returns true exactly
when the single-row lookup succeeds, and returns false on any query error
whatsoever, so a database failure during the check (for example a
connectivity error) is reported to the caller identically to a genuinely
missing user: as the not-found failure whose message is Could not find
user_id. -/
theorem c10_check_error_reported_as_notfound (rdb rdb2 : ResolveDB)
    (u : String) (e : QueryError) (h : rdb.usersById u = .error e)
    (h2 : rdb2.usersById u = .error .noRows) (hu : u ≠ "") :
    userExists rdb u = false ∧
    (∀ db : ResolveDB, userExists db u = true ↔ ∃ v, db.usersById u = .ok v) ∧
    resolveUserID rdb u "" [] =
      (.error (.userNotFound u), [.selectUserById u]) ∧
    resolveUserID rdb u "" [] = resolveUserID rdb2 u "" [] ∧
    fatalMessage (.userNotFound u) =
      "Could not find user_id " ++ u ++ " in the database." := by
  have hf : userExists rdb u = false := by simp [userExists, h]
  have hf2 : userExists rdb2 u = false := by simp [userExists, h2]
  refine ⟨hf, fun db => ?_, ?_, ?_, rfl⟩
  · rw [userExists]
    cases hdb : db.usersById u <;> simp [hdb]
  · simp [resolveUserID, hu, hf]
  · simp [resolveUserID, hu, hf, hf2]

/-- C10 witness: a connectivity failure and a genuine missing user resolve
identically. -/
theorem c10_check_error_reported_as_notfound_witness :
    connFailDB.usersById "U1" = .error (.failure "connection refused") ∧
    emptyResolveDB.usersById "U1" = .error .noRows ∧
    ("U1" : String) ≠ "" ∧
    (userExists connFailDB "U1" = false ∧
     resolveUserID connFailDB "U1" "" [] =
       (.error (.userNotFound "U1"), [.selectUserById "U1"]) ∧
     resolveUserID connFailDB "U1" "" [] =
       resolveUserID emptyResolveDB "U1" "" []) :=
  ⟨rfl, rfl, by decide,
   have h := c10_check_error_reported_as_notfound connFailDB emptyResolveDB
     "U1" (.failure "connection refused") rfl rfl (by decide)
   ⟨h.1, h.2.2.1, h.2.2.2.1⟩⟩

/-- C4 counterexample: in the streaming variant (src/unnamed/part_000), a
scan failure on the second row kills the process after the complete
statement of the first row was already emitted to the final sink, so a
partially serialized table block does appear in the emitted text. -/
theorem c4_stream_midfailure_counterexample :
    (runDumpStream "users" ["id"]
      [.ok [CellValueV0.bytes "1"], .error (.failure "connection reset")]).2 =
        some (.failure "connection reset") ∧
    (runDumpStream "users" ["id"]
      [.ok [CellValueV0.bytes "1"], .error (.failure "connection reset")]).1 =
        rowStmtV0 "users" ["id"] [CellValueV0.bytes "1"] ∧
    rowStmtV0 "users" ["id"] [CellValueV0.bytes "1"] ≠ "" := by
  refine ⟨rfl, ?_, by decide⟩
  show rowStmtV0 "users" ["id"] [CellValueV0.bytes "1"] ++ "" = _
  rw [String.append_empty]

/-- C4 amended: in the main.go variant a table block is emitted fully or not
at all (an error during row serialization makes the table contribute
nothing); in the streaming variant the rows scanned before a mid-stream
failure remain in the emitted text as complete statements, in order, and
nothing of the failing row or its successors is emitted, so no malformed
statement ever reaches the sink. -/
theorem c4_amended_all_or_nothing :
    (∀ (db : DumpDB) (userID table : String),
      (∃ e, generateInsertStatements db (queryFor table) table userID = .error e ∧
          tableBlock db userID table = "") ∨
      (∃ s, generateInsertStatements db (queryFor table) table userID = .ok s ∧
          tableBlock db userID table =
            "-- Insert for " ++ table ++ "\n" ++ s ++ "\n")) ∧
    (∀ (table : String) (cols : List String)
        (scans : List (Except QueryError RowV0)),
      (runDumpStream table cols scans).1 =
        linesConcat ((rowsBeforeFailure scans).map (rowStmtV0 table cols))) := by
  constructor
  · intro db userID table
    rcases h : generateInsertStatements db (queryFor table) table userID with e | s
    · exact .inl ⟨e, rfl, by simp [tableBlock, h]⟩
    · exact .inr ⟨s, rfl, by simp [tableBlock, h]⟩
  · intro table cols scans
    induction scans with
    | nil => rfl
    | cons hd tl ih =>
        cases hd with
        | error e => rfl
        | ok r => simp [runDumpStream, rowsBeforeFailure, linesConcat, ih]

end AccountImporter
